import Mathlib

/-!
Verification of the research-to-structured-data pipeline of the
workshop-abm-researcher repository.

The development shallowly embeds the two relevant modules:

* `research_agent.py` — the `get_company_data` orchestration: source
  collection over seven named search queries, JSON parsing of the synthesis
  output with code-fence stripping, per-section default repair, metadata
  attachment, and the complete-failure fallback record.
* `workshop_features.py` — the `match_features_to_company` keyword scorer.

Python dictionaries are embedded as association lists of string keys and
JSON values (`dictGet` is first-match lookup, `dictSet` is
replace-in-place-or-append, exactly the observable dict semantics for the
duplicate-free dictionaries the code manipulates).  The external search
and generation services are modelled by their responses: each search query
either throws (`Except.error ()`) or returns a list of raw results, and
the generative service's raw text is consumed through an arbitrary
`parse : String → Option Json` standing for `json.loads` (`none` models
`json.JSONDecodeError`).  Python text is embedded as `String`, and the
lower-cased analysis text of the feature matcher as `List Char`.
-/

/-- JSON values, the shape of everything `json.loads` can produce and the
pipeline manipulates. -/
inductive Json where
  | obj : List (String × Json) → Json
  | arr : List Json → Json
  | str : String → Json
  | num : Int → Json
  | bool : Bool → Json
  | null : Json
deriving Repr

/-- First-match lookup in an association list: Python `d[k]` / `k in d`. -/
def dictGet (kvs : List (String × Json)) (k : String) : Option Json :=
  (kvs.find? (fun p => p.1 = k)).map (fun p => p.2)

/-- Python dict assignment `d[k] = v`: replace the value in place when the
key is present, append the new pair otherwise. -/
def dictSet (kvs : List (String × Json)) (k : String) (v : Json) : List (String × Json) :=
  if kvs.any (fun p => p.1 = k) then
    kvs.map (fun p => if p.1 = k then (k, v) else p)
  else
    kvs ++ [(k, v)]

/-- Lookup of a top-level key of a JSON value; non-objects have no keys. -/
def Json.getKey : Json → String → Option Json
  | .obj kvs, k => dictGet kvs k
  | _, _ => none

/-- One collected search hit, `research_agent.py` lines 88-94:
title, url, content and the tag of the query that produced it. -/
structure Source where
  title : String
  url : String
  content : String
  query_type : String
deriving Repr, DecidableEq

/-- One raw result of the external search service (`r` in the collection
loop), before the query tag is attached. -/
structure RawResult where
  title : String
  url : String
  content : String
deriving Repr, DecidableEq

/-- Tagging one raw result with its query type, the append of
`research_agent.py` lines 89-94. -/
def mkSource (query_type : String) (r : RawResult) : Source :=
  { title := r.title, url := r.url, content := r.content, query_type := query_type }

/-- The seven query types of `research_agent.py` lines 36-69, in the
iteration order of the `queries` dict literal. -/
def queryTypes : List String :=
  ["general", "changes", "tech", "culture",
   "people_internal", "people_corporate", "people_linkedin"]

/-- The query-category order named by the specification (section 8).  The
spec calls the second category `strategy`; compare with `queryTypes`, the
order the code actually tags sources with. -/
def specClaimedQueryOrder : List String :=
  ["general", "strategy", "tech", "culture",
   "people_internal", "people_corporate", "people_linkedin"]

/-- The `for query_type, query in queries.items()` loop of lines 74-94:
each query either returns raw results (appended to the accumulator, tagged
with its query type) or throws, which aborts the whole loop with the
exception. -/
def collectLoop :
    List (String × Except Unit (List RawResult)) → List Source → Except Unit (List Source)
  | [], acc => .ok acc
  | (query_type, res) :: rest, acc =>
      match res with
      | .error e => .error e
      | .ok rs => collectLoop rest (acc ++ rs.map (mkSource query_type))

/-- Lines 71-108: the search phase.  The `try` wraps the entire query
loop; on any exception the handler discards everything collected so far
(`all_sources = []`). -/
def collectSources (responses : List (Except Unit (List RawResult))) : List Source :=
  match collectLoop (queryTypes.zip responses) [] with
  | .ok srcs => srcs
  | .error _ => []

/-- The payload of a successful query response (the raw result list), with
a failed response contributing nothing. -/
def okPayload : Except Unit (List RawResult) → List RawResult
  | .ok rs => rs
  | .error _ => []

/-- Flattening per-category result lists in order, tagging each raw result
with its category: the shape of `all_sources` when every query succeeds. -/
def flattenTagged : List (String × List RawResult) → List Source
  | [] => []
  | (query_type, rs) :: rest => rs.map (mkSource query_type) ++ flattenTagged rest

/-- The category an index of the flattened source list falls into, by
cumulative offsets over per-category counts. -/
def categoryOfIndex : List (String × Nat) → Nat → Option String
  | [], _ => none
  | (query_type, c) :: rest, n =>
      if n < c then some query_type else categoryOfIndex rest (n - c)

/-- Lines 216-219: strip a leading Markdown code fence from the raw
synthesis output — trim the text, and if it starts with a fence drop the
first line and, when the last line is a closing fence, the last line
too. -/
def cleanFences (json_output : String) : String :=
  let clean_json := json_output.trim
  if clean_json.startsWith "```" then
    let lines := clean_json.splitOn "\n"
    let body :=
      if (lines.getLast?.getD "").trim = "```" then (lines.drop 1).dropLast
      else lines.drop 1
    "\n".intercalate body
  else clean_json

/-- The default snapshot of `get_default_section`, lines 250-258. -/
def defaultSnapshot : Json :=
  .obj [("industry", .str "Unknown"), ("size", .str "Unknown"),
        ("location", .str "Unknown"), ("fiscal_year", .str "Unknown"),
        ("glassdoor_score", .str "Unknown"),
        ("tech_stack", .arr []), ("change_events", .arr [])]

/-- `get_default_section`, lines 247-264: the defaults table plus the
`defaults.get(section_name, {})` fallthrough. -/
def get_default_section (section_name : String) : Json :=
  if section_name = "snapshot" then defaultSnapshot
  else if section_name = "openers" then .arr []
  else if section_name = "why_now" then .arr []
  else if section_name = "personas" then .arr []
  else if section_name = "angles" then .arr []
  else .obj []

/-- The `required_keys` list of line 224.  Note that `openers` is not in
it. -/
def requiredKeys : List String := ["snapshot", "why_now", "personas", "angles"]

/-- One iteration of the validation loop of lines 225-228: if the key is
missing, assign its default (which, the key being absent, appends it). -/
def vstep (kvs : List (String × Json)) (k : String) : List (String × Json) :=
  if kvs.any (fun p => p.1 = k) then kvs
  else dictSet kvs k (get_default_section k)

/-- The whole validation loop over `required_keys`. -/
def validateRequired (kvs : List (String × Json)) : List (String × Json) :=
  requiredKeys.foldl vstep kvs

/-- Rendering one collected source into the `_metadata.all_sources`
entry. -/
def sourceToJson (s : Source) : Json :=
  .obj [("title", .str s.title), ("url", .str s.url),
        ("content", .str s.content), ("query_type", .str s.query_type)]

/-- The `_metadata` envelope attached at lines 231-236. -/
def metadataJson (company_name website_url : String) (all_sources : List Source) : Json :=
  .obj [("company_name", .str company_name),
        ("website", .str website_url),
        ("sources_count", .num (all_sources.length : Int)),
        ("all_sources", .arr (all_sources.map sourceToJson))]

/-- `get_fallback_data`, lines 267-317: the minimal valid record returned
when parsing fails completely. -/
def get_fallback_data (company_name website_url : String) : Json :=
  .obj [
    ("snapshot", .obj [
      ("industry", .str "Research in progress"), ("size", .str "Unknown"),
      ("location", .str "Unknown"), ("fiscal_year", .str "Unknown"),
      ("glassdoor_score", .str "Unknown"), ("tech_stack", .arr []),
      ("change_events", .arr [
        .obj [("event", .str "Limited public information available"),
              ("source", .null), ("source_url", .str website_url)]])]),
    ("openers", .arr [
      .obj [("label", .str "General Outreach"),
            ("script", .str ("I noticed " ++ company_name ++
              " is growing—how are you scaling your internal comms?"))]]),
    ("why_now", .arr [
      .obj [("title", .str "Additional research needed"),
            ("description", .str ("Manual research recommended for " ++ company_name)),
            ("source", .null), ("source_url", .str website_url)]]),
    ("personas", .arr [
      .obj [("name", .str "Director of Internal Communications"),
            ("role", .str "Internal Comms Lead"), ("email", .str "Unknown"),
            ("is_named_person", .bool false),
            ("goals", .arr [.str "Improve engagement", .str "Streamline tools"]),
            ("fears", .arr [.str "Low adoption", .str "Noise"]),
            ("source", .null)]]),
    ("angles", .arr []),
    ("_metadata", .obj [
      ("company_name", .str company_name), ("website", .str website_url),
      ("sources_count", .num 0), ("all_sources", .arr [])])]

/-- The uncaught Python exceptions of the parse-and-validate block: only
`json.JSONDecodeError` is caught (line 241), so validating a successfully
parsed non-dict raises `TypeError` to the caller (either at the
`key not in structured_data` membership test or at the item
assignments of lines 228 and 231). -/
inductive PyError where
  | typeError
deriving Repr, DecidableEq

/-- Lines 215-244 of `get_company_data`, after the raw synthesis text has
gone through `json.loads` (`parsed = none` models `json.JSONDecodeError`):
on parse failure return the fallback record; on a parsed object back-fill
the required sections and attach `_metadata`; a parsed non-object raises
`TypeError`, which no handler catches. -/
def processParsed (parsed : Option Json) (company_name website_url : String)
    (all_sources : List Source) : Except PyError Json :=
  match parsed with
  | none => .ok (get_fallback_data company_name website_url)
  | some (.obj kvs) =>
      .ok (.obj (dictSet (validateRequired kvs) "_metadata"
        (metadataJson company_name website_url all_sources)))
  | some _ => .error .typeError

/-- `get_company_data` with the two external services abstracted by their
responses: the per-query search outcomes and the parse result of the
synthesis output.  Source collection feeds the `_metadata` envelope of the
validated record. -/
def get_company_data (responses : List (Except Unit (List RawResult)))
    (parsed : Option Json) (company_name website_url : String) : Except PyError Json :=
  processParsed parsed company_name website_url (collectSources responses)

/-- `get_company_data` one level closer to the source: the synthesis
service's raw text is stripped of code fences and fed to `parse`, the
model of `json.loads`. -/
def get_company_data_raw (parse : String → Option Json)
    (responses : List (Except Unit (List RawResult)))
    (json_output : String) (company_name website_url : String) : Except PyError Json :=
  get_company_data responses (parse (cleanFences json_output)) company_name website_url

/-- One entry of the `WORKSHOP_FEATURES` table of `workshop_features.py`:
display name, feature list, pain-point keywords and pricing tier. -/
structure FeatureData where
  name : String
  features : List String
  pain_points : List String
  tier : String
deriving Repr, DecidableEq

/-- The `WORKSHOP_FEATURES` dict of `workshop_features.py` lines 7-157, in
its literal insertion order. -/
def WORKSHOP_FEATURES : List (String × FeatureData) := [
  ("leadership_communication",
    { name := "Leadership Communication Hub",
      features := ["Drag-and-drop functionality", "Template library", "Ghostwriting",
                   "Scheduling", "Custom built email templates"],
      pain_points := ["leadership transition", "new ceo", "executive communication",
                      "vision alignment", "change management"],
      tier := "Essential" }),
  ("frontline_mobile",
    { name := "Mobile-First Frontline Reach",
      features := ["Mobile/responsive design", "SMS", "Pages", "QR codes",
                   "Additional phone numbers for SMS"],
      pain_points := ["frontline", "deskless", "shift workers", "clinical staff",
                      "field employees", "mobile workforce"],
      tier := "Essential + SMS Add-on" }),
  ("audience_segmentation",
    { name := "Intelligent Audience Targeting",
      features := ["Audience segmentation", "Dynamic distribution lists",
                   "Filter by department, role, location, etc.",
                   "Filter by custom properties", "Automated time zone sending"],
      pain_points := ["multiple locations", "distributed workforce", "multi-site",
                      "geographic spread", "targeted messaging"],
      tier := "Enhanced" }),
  ("hybrid_workforce",
    { name := "Hybrid Workforce Suite",
      features := ["Microsoft Teams", "Slack", "Sharepoint", "Workvivo",
                   "Shareable URL", "Campaign archives"],
      pain_points := ["hybrid work", "remote", "work from home", "distributed teams",
                      "flexible work"],
      tier := "Essential" }),
  ("integration_ecosystem",
    { name := "HR System Integration",
      features := ["Workday", "UKG Pro", "ADP Workforce Now", "SAP SuccessFactors",
                   "Oracle", "Ceridian Dayforce", "Azure Active Directory", "Okta",
                   "Single Sign On (SSO)"],
      pain_points := ["workday", "adp", "hris integration", "employee data", "sso",
                      "active directory"],
      tier := "Premium (HRIS) / Essential (Directory)" }),
  ("analytics_roi",
    { name := "Engagement Analytics & ROI",
      features := ["Open, click, read time, and device analytics", "Click maps",
                   "Account-wide analytics", "Campaign tagging & analytics",
                   "Monthly email performance summaries",
                   "Individual recipient engagement data", "Downloadable PDF reports"],
      pain_points := ["engagement metrics", "roi", "analytics", "measurement",
                      "reporting", "data-driven"],
      tier := "Essential" }),
  ("multilingual",
    { name := "Global Team Communication",
      features := ["Language translation", "US/EU/CA-based servers",
                   "Automated time zone sending"],
      pain_points := ["international", "global", "multilingual", "multiple languages",
                      "language barriers"],
      tier := "Premium" }),
  ("change_management",
    { name := "Change Management Toolkit",
      features := ["Communications calendar", "Campaign management",
                   "Template management", "Blackout dates"],
      pain_points := ["acquisition", "merger", "reorganization", "transformation",
                      "change initiative"],
      tier := "Essential (Blackout dates is Premium)" }),
  ("employee_engagement",
    { name := "Employee Engagement Tools",
      features := ["Embedded surveys", "AI-assisted features", "AI content tools",
                   "GIPHY integration", "Unsplash photo integration"],
      pain_points := ["engagement", "retention", "turnover", "culture",
                      "employee experience"],
      tier := "Enhanced" }),
  ("rapid_deployment",
    { name := "Fast Implementation",
      features := ["Onboarding management", "Software training for new users",
                   "Dedicated account management", "Email support"],
      pain_points := ["quick setup", "fast deployment", "time to value", "ease of use"],
      tier := "Essential" }),
  ("security_compliance",
    { name := "Enterprise Security",
      features := ["SOC 2 Type II", "GDPR compliant", "Penetration testing",
                   "Access control", "Automatic encrypted backups", "Disaster recovery"],
      pain_points := ["security", "compliance", "data protection", "healthcare",
                      "financial services", "regulated"],
      tier := "Essential" }),
  ("scale_enterprise",
    { name := "Enterprise Scale",
      features := ["Unlimited storage", "Unlimited admins", "User roles management",
                   "Permission management", "Unlimited user licenses"],
      pain_points := ["large organization", "5000+", "10000+", "enterprise", "scale"],
      tier := "Enhanced/Premium" })]

/-- A persona of the input record, restricted to the fields the matcher
reads (`persona.get` of title, goals, fears). -/
structure PersonaData where
  title : String
  goals : List String
  fears : List String
deriving Repr, DecidableEq

/-- A `why_now` item of the input record, restricted to the fields the
matcher reads. -/
structure WhyNowItem where
  title : String
  description : String
deriving Repr, DecidableEq

/-- The snapshot fields the matcher reads; change events and tech-stack
entries are taken by their text (the `event` / `tool` field, or the
string itself). -/
structure SnapshotData where
  industry : String
  size : String
  footprint : String
  change_events : List String
  tech_stack : List String
deriving Repr, DecidableEq

/-- The company record consumed by `match_features_to_company`, per the
Structured Intelligence Record data model. -/
structure CompanyData where
  snapshot : SnapshotData
  why_now : List WhyNowItem
  personas : List PersonaData
deriving Repr, DecidableEq

/-- Python `s.lower()` viewed as a character list. -/
def lowerChars (s : String) : List Char :=
  s.toList.map Char.toLower

/-- The `text_to_analyze` accumulation of `workshop_features.py` lines
171-207: lower-cased snapshot fields, change events, tech-stack tools,
why-now titles and descriptions, persona titles, goals and fears, in that
order. -/
def textToAnalyze (structured_data : CompanyData) : List (List Char) :=
  [lowerChars structured_data.snapshot.industry,
   lowerChars structured_data.snapshot.size,
   lowerChars structured_data.snapshot.footprint]
  ++ structured_data.snapshot.change_events.map lowerChars
  ++ structured_data.snapshot.tech_stack.map lowerChars
  ++ (structured_data.why_now.map
        (fun item => [lowerChars item.title, lowerChars item.description])).flatten
  ++ (structured_data.personas.map
        (fun p => lowerChars p.title :: (p.goals.map lowerChars ++ p.fears.map lowerChars))).flatten

/-- Python `' '.join(text_to_analyze)`, line 210. -/
def combinedText (structured_data : CompanyData) : List Char :=
  List.intercalate [' '] (textToAnalyze structured_data)

/-- Python `pattern in text` on strings: the pattern occurs as a
contiguous substring of the text. -/
def containsSub (text pat : List Char) : Bool :=
  match text with
  | [] => pat.isEmpty
  | _ :: t => pat.isPrefixOf text || containsSub t pat

/-- The inner scoring loop of lines 216-221: count the pain-point
keywords occurring in the combined text and record the matches. -/
def scorePains (text : List Char) (pains : List String) : Nat × List String :=
  pains.foldl
    (fun acc p => if containsSub text p.toList then (acc.1 + 1, acc.2 ++ [p]) else acc)
    (0, [])

/-- One entry of the `feature_scores` dict of lines 223-228. -/
structure ScoredFeature where
  key : String
  score : Nat
  data : FeatureData
  matched_keywords : List String
deriving Repr, DecidableEq

/-- The `feature_scores` accumulation of lines 213-228, in the insertion
order of `WORKSHOP_FEATURES`: features with a positive score, with their
score and matched keywords. -/
def featureScoresList (text : List Char) : List ScoredFeature :=
  WORKSHOP_FEATURES.foldl
    (fun acc kf =>
      let s := scorePains text kf.2.pain_points
      if 0 < s.1 then
        acc ++ [{ key := kf.1, score := s.1, data := kf.2, matched_keywords := s.2 }]
      else acc)
    []

/-- The descending-score order used by
`sorted(feature_scores.items(), key=lambda x: x[1]['score'], reverse=True)`. -/
def scoreGE (a b : ScoredFeature) : Prop :=
  b.score ≤ a.score

instance : DecidableRel scoreGE :=
  fun a b => Nat.decLe b.score a.score

instance : IsTotal ScoredFeature scoreGE :=
  ⟨fun a b => Nat.le_total b.score a.score⟩

instance : IsTrans ScoredFeature scoreGE :=
  ⟨fun _ _ _ h1 h2 => Nat.le_trans h2 h1⟩

/-- Whether a JSON value is an object (a Python dict). -/
def Json.isObj : Json → Bool
  | .obj _ => true
  | _ => false

/-- The length of a JSON array option, zero elsewhere; used to observe
section lengths of a record. -/
def arrLen : Option Json → Nat
  | some (.arr l) => l.length
  | _ => 0

/-- One returned feature entry of lines 236-243. -/
structure MatchedFeature where
  key : String
  name : String
  features : List String
  tier : String
  relevance_score : Nat
  matched_keywords : List String
deriving Repr, DecidableEq

/-- `match_features_to_company`, lines 160-245: score every feature
against the combined record text, keep positive scorers, stable-sort by
descending score and return the top four, reshaped into output
entries. -/
def match_features_to_company (structured_data : CompanyData) : List MatchedFeature :=
  let combined_text := combinedText structured_data
  let feature_scores := featureScoresList combined_text
  let sorted_features := List.insertionSort scoreGE feature_scores
  (sorted_features.take 4).map
    (fun fi => { key := fi.key, name := fi.data.name, features := fi.data.features,
                 tier := fi.data.tier, relevance_score := fi.score,
                 matched_keywords := fi.matched_keywords })

/-! ## Association-list (Python dict) lemmas -/

theorem dictGet_isSome_eq_any (kvs : List (String × Json)) (k : String) :
    (dictGet kvs k).isSome = kvs.any (fun p => p.1 = k) := by
  induction kvs with
  | nil => rfl
  | cons p rest ih =>
      by_cases h : p.1 = k
      · rw [dictGet, List.find?_cons_of_pos _ (by simpa using h)]
        simp [List.any_cons, h]
      · rw [dictGet, List.find?_cons_of_neg _ (by simpa using h)]
        rw [List.any_cons]
        simp only [dictGet] at ih
        simpa [h] using ih

theorem dictGet_eq_none_of_not_any (kvs : List (String × Json)) (k : String)
    (h : kvs.any (fun p => p.1 = k) = false) : dictGet kvs k = none := by
  have h2 := dictGet_isSome_eq_any kvs k
  rw [h] at h2
  cases ho : dictGet kvs k with
  | none => rfl
  | some v => rw [ho] at h2; cases h2

theorem dictGet_append (kvs l : List (String × Json)) (k : String) :
    dictGet (kvs ++ l) k = (dictGet kvs k).or (dictGet l k) := by
  unfold dictGet
  rw [List.find?_append]
  cases List.find? (fun p => p.1 = k) kvs <;> rfl

theorem dictGet_append_of_some (kvs l : List (String × Json)) (k : String) (v : Json)
    (h : dictGet kvs k = some v) : dictGet (kvs ++ l) k = some v := by
  rw [dictGet_append, h]; rfl

theorem dictGet_append_of_none (kvs l : List (String × Json)) (k : String)
    (h : dictGet kvs k = none) : dictGet (kvs ++ l) k = dictGet l k := by
  rw [dictGet_append, h]
  cases dictGet l k <;> rfl

theorem dictGet_singleton_self (k : String) (v : Json) : dictGet [(k, v)] k = some v := by
  rw [dictGet, List.find?_cons_of_pos _ (by simp)]
  rfl

theorem dictGet_singleton_of_ne (k k1 : String) (v : Json) (h : k1 ≠ k) :
    dictGet [(k, v)] k1 = none := by
  rw [dictGet, List.find?_cons_of_neg _ (by simpa using Ne.symm h)]
  rfl

theorem dictGet_map_replace_of_any (kvs : List (String × Json)) (k : String) (v : Json)
    (h : kvs.any (fun p => p.1 = k) = true) :
    dictGet (kvs.map (fun p => if p.1 = k then (k, v) else p)) k = some v := by
  induction kvs with
  | nil => cases h
  | cons p rest ih =>
      by_cases hp : p.1 = k
      · rw [List.map_cons, if_pos hp, dictGet, List.find?_cons_of_pos _ (by simp)]
        rfl
      · rw [List.map_cons, if_neg hp, dictGet,
          List.find?_cons_of_neg _ (by simpa using hp)]
        rw [List.any_cons] at h
        have hd : decide (p.1 = k) = false := by simp [hp]
        rw [hd, Bool.false_or] at h
        exact ih h

theorem dictGet_map_replace_of_ne (kvs : List (String × Json)) (k : String) (v : Json)
    (k1 : String) (h : k1 ≠ k) :
    dictGet (kvs.map (fun p => if p.1 = k then (k, v) else p)) k1 = dictGet kvs k1 := by
  induction kvs with
  | nil => rfl
  | cons p rest ih =>
      by_cases hp : p.1 = k
      · rw [List.map_cons, if_pos hp, dictGet,
          List.find?_cons_of_neg _ (by simpa using Ne.symm h), dictGet,
          List.find?_cons_of_neg _ (by simp [hp, Ne.symm h])]
        exact ih
      · by_cases hq : p.1 = k1
        · rw [List.map_cons, if_neg hp, dictGet, List.find?_cons_of_pos _ (by simpa using hq),
            dictGet, List.find?_cons_of_pos _ (by simpa using hq)]
        · rw [List.map_cons, if_neg hp, dictGet, List.find?_cons_of_neg _ (by simpa using hq),
            dictGet, List.find?_cons_of_neg _ (by simpa using hq)]
          exact ih

theorem dictGet_dictSet_self (kvs : List (String × Json)) (k : String) (v : Json) :
    dictGet (dictSet kvs k v) k = some v := by
  unfold dictSet
  by_cases h : kvs.any (fun p => p.1 = k)
  · rw [if_pos h]
    exact dictGet_map_replace_of_any kvs k v h
  · rw [if_neg h]
    rw [dictGet_append_of_none _ _ _ (dictGet_eq_none_of_not_any _ _ (Bool.eq_false_iff.mpr h))]
    exact dictGet_singleton_self k v

theorem dictGet_dictSet_of_ne (kvs : List (String × Json)) (k : String) (v : Json)
    (k1 : String) (h : k1 ≠ k) : dictGet (dictSet kvs k v) k1 = dictGet kvs k1 := by
  unfold dictSet
  by_cases ha : kvs.any (fun p => p.1 = k)
  · rw [if_pos ha]
    exact dictGet_map_replace_of_ne kvs k v k1 h
  · rw [if_neg ha, dictGet_append]
    rw [dictGet_singleton_of_ne k k1 v h]
    cases dictGet kvs k1 <;> rfl

/-! ## Validation-loop lemmas -/

theorem vstep_preserve_some (kvs : List (String × Json)) (k k1 : String) (v : Json)
    (h : dictGet kvs k1 = some v) : dictGet (vstep kvs k) k1 = some v := by
  unfold vstep
  by_cases ha : kvs.any (fun p => p.1 = k)
  · rw [if_pos ha]; exact h
  · rw [if_neg ha]
    unfold dictSet
    rw [if_neg ha]
    exact dictGet_append_of_some _ _ _ _ h

theorem vstep_preserve_isSome (kvs : List (String × Json)) (k k1 : String)
    (h : (dictGet kvs k1).isSome = true) : (dictGet (vstep kvs k) k1).isSome = true := by
  cases ho : dictGet kvs k1 with
  | none => rw [ho] at h; cases h
  | some v => rw [vstep_preserve_some kvs k k1 v ho]; rfl

theorem vstep_self_of_none (kvs : List (String × Json)) (k : String)
    (h : dictGet kvs k = none) : dictGet (vstep kvs k) k = some (get_default_section k) := by
  unfold vstep
  have ha : kvs.any (fun p => p.1 = k) = false := by
    have h2 := dictGet_isSome_eq_any kvs k
    rw [h] at h2
    exact h2.symm
  rw [if_neg (by simp [ha])]
  exact dictGet_dictSet_self kvs k _

theorem vstep_self_isSome (kvs : List (String × Json)) (k : String) :
    (dictGet (vstep kvs k) k).isSome = true := by
  cases ho : dictGet kvs k with
  | none => rw [vstep_self_of_none kvs k ho]; rfl
  | some v => rw [vstep_preserve_some kvs k k v ho]; rfl

theorem vstep_preserve_none (kvs : List (String × Json)) (k k1 : String)
    (hne : k1 ≠ k) (h : dictGet kvs k1 = none) : dictGet (vstep kvs k) k1 = none := by
  unfold vstep
  by_cases ha : kvs.any (fun p => p.1 = k)
  · rw [if_pos ha]; exact h
  · rw [if_neg ha]
    rw [dictGet_dictSet_of_ne _ _ _ _ hne]
    exact h

theorem validateRequired_unfold (kvs : List (String × Json)) :
    validateRequired kvs
      = vstep (vstep (vstep (vstep kvs "snapshot") "why_now") "personas") "angles" := rfl

theorem validateRequired_preserve_some (kvs : List (String × Json)) (k : String) (v : Json)
    (h : dictGet kvs k = some v) : dictGet (validateRequired kvs) k = some v := by
  rw [validateRequired_unfold]
  exact vstep_preserve_some _ _ _ _ (vstep_preserve_some _ _ _ _
    (vstep_preserve_some _ _ _ _ (vstep_preserve_some _ _ _ _ h)))

theorem validateRequired_required_isSome (kvs : List (String × Json)) (k : String)
    (hk : k ∈ requiredKeys) : (dictGet (validateRequired kvs) k).isSome = true := by
  rw [validateRequired_unfold]
  simp only [requiredKeys, List.mem_cons, List.not_mem_nil, or_false] at hk
  rcases hk with rfl | rfl | rfl | rfl
  · exact vstep_preserve_isSome _ _ _ (vstep_preserve_isSome _ _ _
      (vstep_preserve_isSome _ _ _ (vstep_self_isSome _ _)))
  · exact vstep_preserve_isSome _ _ _ (vstep_preserve_isSome _ _ _ (vstep_self_isSome _ _))
  · exact vstep_preserve_isSome _ _ _ (vstep_self_isSome _ _)
  · exact vstep_self_isSome _ _

theorem validateRequired_default_of_none (kvs : List (String × Json)) (k : String)
    (hk : k ∈ requiredKeys) (h : dictGet kvs k = none) :
    dictGet (validateRequired kvs) k = some (get_default_section k) := by
  rw [validateRequired_unfold]
  simp only [requiredKeys, List.mem_cons, List.not_mem_nil, or_false] at hk
  rcases hk with rfl | rfl | rfl | rfl
  · exact vstep_preserve_some _ _ _ _ (vstep_preserve_some _ _ _ _
      (vstep_preserve_some _ _ _ _ (vstep_self_of_none _ _ h)))
  · exact vstep_preserve_some _ _ _ _ (vstep_preserve_some _ _ _ _
      (vstep_self_of_none _ _ (vstep_preserve_none _ _ _ (by decide) h)))
  · exact vstep_preserve_some _ _ _ _ (vstep_self_of_none _ _
      (vstep_preserve_none _ _ _ (by decide) (vstep_preserve_none _ _ _ (by decide) h)))
  · exact vstep_self_of_none _ _ (vstep_preserve_none _ _ _ (by decide)
      (vstep_preserve_none _ _ _ (by decide) (vstep_preserve_none _ _ _ (by decide) h)))

/-! ## Source-collection lemmas -/

theorem collectLoop_all_ok (pairs : List (String × Except Unit (List RawResult)))
    (acc : List Source) (h : ∀ p ∈ pairs, p.2 ≠ Except.error ()) :
    collectLoop pairs acc
      = .ok (acc ++ flattenTagged (pairs.map (fun p => (p.1, okPayload p.2)))) := by
  induction pairs generalizing acc with
  | nil => simp [collectLoop, flattenTagged]
  | cons p rest ih =>
      obtain ⟨qt, res⟩ := p
      cases res with
      | error e =>
          cases e
          exact absurd rfl (h (qt, Except.error ()) (List.mem_cons_self _ _))
      | ok rs =>
          rw [collectLoop]
          rw [ih _ (fun q hq => h q (List.mem_cons_of_mem _ hq))]
          simp [flattenTagged, okPayload, List.append_assoc]

theorem collectLoop_has_error (pairs : List (String × Except Unit (List RawResult)))
    (acc : List Source) (h : ∃ p ∈ pairs, p.2 = Except.error ()) :
    collectLoop pairs acc = .error () := by
  induction pairs generalizing acc with
  | nil => simp at h
  | cons p rest ih =>
      obtain ⟨qt, res⟩ := p
      cases res with
      | error e => cases e; rfl
      | ok rs =>
          rw [collectLoop]
          apply ih
          rcases h with ⟨q, hq, he⟩
          rcases List.mem_cons.mp hq with rfl | hmem
          · cases he
          · exact ⟨q, hmem, he⟩

theorem flattenTagged_getElem (pairs : List (String × List RawResult)) (n : Nat) :
    ((flattenTagged pairs)[n]?).map Source.query_type
      = categoryOfIndex (pairs.map (fun p => (p.1, p.2.length))) n := by
  induction pairs generalizing n with
  | nil => simp [flattenTagged, categoryOfIndex]
  | cons p rest ih =>
      obtain ⟨qt, rs⟩ := p
      rw [flattenTagged, List.map_cons, categoryOfIndex, List.getElem?_append]
      by_cases hn : n < rs.length
      · rw [if_pos (by simpa using hn), if_pos hn, List.getElem?_map,
          List.getElem?_eq_getElem hn]
        rfl
      · rw [if_neg (by simpa using hn), if_neg hn]
        simpa [List.length_map] using ih (n - rs.length)

/-! ## Feature-matching lemmas -/

theorem featureScoresList_eq_filterMap (text : List Char) :
    featureScoresList text
      = WORKSHOP_FEATURES.filterMap (fun kf =>
          let s := scorePains text kf.2.pain_points
          if 0 < s.1 then
            some { key := kf.1, score := s.1, data := kf.2, matched_keywords := s.2 }
          else none) := by
  unfold featureScoresList
  suffices h : ∀ (fs : List (String × FeatureData)) (acc : List ScoredFeature),
      fs.foldl (fun acc kf =>
        let s := scorePains text kf.2.pain_points
        if 0 < s.1 then
          acc ++ [{ key := kf.1, score := s.1, data := kf.2, matched_keywords := s.2 }]
        else acc) acc
      = acc ++ fs.filterMap (fun kf =>
          let s := scorePains text kf.2.pain_points
          if 0 < s.1 then
            some { key := kf.1, score := s.1, data := kf.2, matched_keywords := s.2 }
          else none) by
    simpa using h WORKSHOP_FEATURES []
  intro fs
  induction fs with
  | nil =>
      intro acc
      simp
  | cons kf rest ih =>
      intro acc
      rw [List.foldl_cons, List.filterMap_cons]
      dsimp only
      by_cases hc : 0 < (scorePains text kf.2.pain_points).1
      · rw [if_pos hc, if_pos hc, ih]
        simp [List.append_assoc]
      · rw [if_neg hc, if_neg hc, ih]

theorem mem_featureScoresList_pos (text : List Char) (f : ScoredFeature)
    (h : f ∈ featureScoresList text) : 0 < f.score := by
  rw [featureScoresList_eq_filterMap] at h
  rcases List.mem_filterMap.mp h with ⟨kf, hmem, hg⟩
  dsimp only at hg
  by_cases hc : 0 < (scorePains text kf.2.pain_points).1
  · rw [if_pos hc] at hg
    cases hg
    exact hc
  · rw [if_neg hc] at hg
    cases hg

/-! ## Claim theorems -/

/-- Claim C1, counterexample: when the synthesis output parses as a JSON
object that lacks the `openers` key, the returned record does NOT contain
`openers` — `required_keys` only back-fills snapshot, why_now, personas
and angles — so the claimed six-key guarantee fails while the record is
otherwise produced normally. -/
theorem claim_C1_counterexample :
    ((get_company_data [] (some (.obj [])) "Acme Corp" "acme.com").toOption.getD
        .null).getKey "openers" = none
    ∧ ((get_company_data [] (some (.obj [])) "Acme Corp" "acme.com").toOption.getD
        .null).getKey "snapshot" = some defaultSnapshot :=
  ⟨rfl, rfl⟩

/-- Claim C1, amended: every record returned by `get_company_data`
contains the five top-level keys snapshot, why_now, personas, angles and
`_metadata`; the `openers` key is additionally guaranteed only on the
parse-failure (fallback) path, not when a parsed object lacks it. -/
theorem claim_C1_amended (responses : List (Except Unit (List RawResult)))
    (parsed : Option Json) (company_name website_url : String) (j : Json)
    (h : get_company_data responses parsed company_name website_url = .ok j) :
    ((j.getKey "snapshot").isSome = true ∧ (j.getKey "why_now").isSome = true
      ∧ (j.getKey "personas").isSome = true ∧ (j.getKey "angles").isSome = true
      ∧ (j.getKey "_metadata").isSome = true)
    ∧ (parsed = none → (j.getKey "openers").isSome = true) := by
  cases parsed with
  | none =>
      have hred : get_company_data responses none company_name website_url
          = .ok (get_fallback_data company_name website_url) := rfl
      rw [hred] at h
      have hj := (Except.ok.inj h).symm
      subst hj
      exact ⟨⟨rfl, rfl, rfl, rfl, rfl⟩, fun _ => rfl⟩
  | some pj =>
      cases pj with
      | obj kvs =>
          have hred : get_company_data responses (some (.obj kvs)) company_name website_url
              = .ok (.obj (dictSet (validateRequired kvs) "_metadata"
                  (metadataJson company_name website_url (collectSources responses)))) := rfl
          rw [hred] at h
          have hj := (Except.ok.inj h).symm
          subst hj
          refine ⟨⟨?_, ?_, ?_, ?_, ?_⟩, fun hc => by cases hc⟩
          · show (dictGet (dictSet (validateRequired kvs) "_metadata"
                (metadataJson company_name website_url (collectSources responses)))
                  "snapshot").isSome = true
            rw [dictGet_dictSet_of_ne _ _ _ _ (by decide)]
            exact validateRequired_required_isSome kvs "snapshot" (by decide)
          · show (dictGet (dictSet (validateRequired kvs) "_metadata"
                (metadataJson company_name website_url (collectSources responses)))
                  "why_now").isSome = true
            rw [dictGet_dictSet_of_ne _ _ _ _ (by decide)]
            exact validateRequired_required_isSome kvs "why_now" (by decide)
          · show (dictGet (dictSet (validateRequired kvs) "_metadata"
                (metadataJson company_name website_url (collectSources responses)))
                  "personas").isSome = true
            rw [dictGet_dictSet_of_ne _ _ _ _ (by decide)]
            exact validateRequired_required_isSome kvs "personas" (by decide)
          · show (dictGet (dictSet (validateRequired kvs) "_metadata"
                (metadataJson company_name website_url (collectSources responses)))
                  "angles").isSome = true
            rw [dictGet_dictSet_of_ne _ _ _ _ (by decide)]
            exact validateRequired_required_isSome kvs "angles" (by decide)
          · show (dictGet (dictSet (validateRequired kvs) "_metadata"
                (metadataJson company_name website_url (collectSources responses)))
                  "_metadata").isSome = true
            rw [dictGet_dictSet_self]
            rfl
      | arr l => cases h
      | str s => cases h
      | num n => cases h
      | bool b => cases h
      | null => cases h

/-- Witness for C1 amended at a concrete input: a parsed empty object
still yields a record with a snapshot key. -/
theorem claim_C1_witness :
    (((get_company_data [] (some (.obj [])) "Acme Corp" "acme.com").toOption.getD
        .null).getKey "snapshot").isSome = true :=
  ((claim_C1_amended [] (some (.obj [])) "Acme Corp" "acme.com" _ rfl).1).1

/-- Claim C2, counterexample: the validator performs no truncation — a
parsed object whose why_now has 4 items and personas has 3 items is
returned with those lengths intact, violating the claimed caps of 3 and
2. -/
theorem claim_C2_counterexample :
    ¬ (arrLen (((get_company_data []
          (some (.obj [("why_now", .arr [.null, .null, .null, .null]),
            ("personas", .arr [.null, .null, .null])]))
          "Acme Corp" "acme.com").toOption.getD .null).getKey "why_now") ≤ 3
       ∧ arrLen (((get_company_data []
          (some (.obj [("why_now", .arr [.null, .null, .null, .null]),
            ("personas", .arr [.null, .null, .null])]))
          "Acme Corp" "acme.com").toOption.getD .null).getKey "personas") ≤ 2) := by
  decide

/-- Claim C2, amended: `get_company_data` passes the parsed why_now and
personas sections through unchanged (no cap is enforced), so their
lengths in the returned record equal the parsed lengths and may exceed 3
and 2. -/
theorem claim_C2_amended (responses : List (Except Unit (List RawResult)))
    (kvs : List (String × Json)) (company_name website_url : String) (vw vp : Json) :
    (dictGet kvs "why_now" = some vw →
      ((get_company_data responses (some (.obj kvs)) company_name website_url).toOption.getD
          .null).getKey "why_now" = some vw)
    ∧ (dictGet kvs "personas" = some vp →
      ((get_company_data responses (some (.obj kvs)) company_name website_url).toOption.getD
          .null).getKey "personas" = some vp) := by
  constructor
  · intro hw
    show dictGet (dictSet (validateRequired kvs) "_metadata"
        (metadataJson company_name website_url (collectSources responses))) "why_now" = some vw
    rw [dictGet_dictSet_of_ne _ _ _ _ (by decide)]
    exact validateRequired_preserve_some _ _ _ hw
  · intro hp
    show dictGet (dictSet (validateRequired kvs) "_metadata"
        (metadataJson company_name website_url (collectSources responses))) "personas" = some vp
    rw [dictGet_dictSet_of_ne _ _ _ _ (by decide)]
    exact validateRequired_preserve_some _ _ _ hp

/-- Witness for C2 amended: a four-item why_now list survives
validation with all four items. -/
theorem claim_C2_witness :
    ((get_company_data []
        (some (.obj [("why_now", .arr [.null, .null, .null, .null]),
          ("personas", .arr [.null, .null, .null])]))
        "Acme Corp" "acme.com").toOption.getD .null).getKey "why_now"
      = some (.arr [.null, .null, .null, .null]) :=
  (claim_C2_amended [] [("why_now", .arr [.null, .null, .null, .null]),
      ("personas", .arr [.null, .null, .null])] "Acme Corp" "acme.com"
      (.arr [.null, .null, .null, .null]) (.arr [.null, .null, .null])).1 rfl

/-- Claim C3, counterexample: failures are NOT isolated per query — the
single `try` wraps the whole query loop and its handler clears
`all_sources`, so when the second query throws, the result of the first
query is dropped and the source list is empty. -/
theorem claim_C3_counterexample :
    collectSources [Except.ok [RawResult.mk "t1" "u1" "c1"], .error (),
        .ok [RawResult.mk "t3" "u3" "c3"], .ok [], .ok [], .ok [], .ok []] = []
    ∧ mkSource "general" (RawResult.mk "t1" "u1" "c1") ∉
        collectSources [Except.ok [RawResult.mk "t1" "u1" "c1"], .error (),
          .ok [RawResult.mk "t3" "u3" "c3"], .ok [], .ok [], .ok [], .ok []] := by
  exact ⟨rfl, by decide⟩

/-- Claim C3, amended: if any of the seven queries throws, the entire
collected source list is discarded (the pipeline continues with an empty
list); only when every query succeeds do all results flow, in query
order, into the source list passed to synthesis and `_metadata`. -/
theorem claim_C3_amended (r1 r2 r3 r4 r5 r6 r7 : Except Unit (List RawResult)) :
    (Except.error () ∈ [r1, r2, r3, r4, r5, r6, r7] →
      collectSources [r1, r2, r3, r4, r5, r6, r7] = [])
    ∧ ((∀ r ∈ [r1, r2, r3, r4, r5, r6, r7], r ≠ Except.error ()) →
      collectSources [r1, r2, r3, r4, r5, r6, r7]
        = flattenTagged [("general", okPayload r1), ("changes", okPayload r2),
            ("tech", okPayload r3), ("culture", okPayload r4),
            ("people_internal", okPayload r5), ("people_corporate", okPayload r6),
            ("people_linkedin", okPayload r7)]) := by
  have hzip : queryTypes.zip [r1, r2, r3, r4, r5, r6, r7]
      = [("general", r1), ("changes", r2), ("tech", r3), ("culture", r4),
         ("people_internal", r5), ("people_corporate", r6), ("people_linkedin", r7)] := rfl
  constructor
  · intro hmem
    have hex : ∃ p ∈ queryTypes.zip [r1, r2, r3, r4, r5, r6, r7], p.2 = Except.error () := by
      rw [hzip]
      simp only [List.mem_cons, List.not_mem_nil, or_false] at hmem
      rcases hmem with h|h|h|h|h|h|h
      · exact ⟨("general", r1), by simp, h.symm⟩
      · exact ⟨("changes", r2), by simp, h.symm⟩
      · exact ⟨("tech", r3), by simp, h.symm⟩
      · exact ⟨("culture", r4), by simp, h.symm⟩
      · exact ⟨("people_internal", r5), by simp, h.symm⟩
      · exact ⟨("people_corporate", r6), by simp, h.symm⟩
      · exact ⟨("people_linkedin", r7), by simp, h.symm⟩
    unfold collectSources
    rw [collectLoop_has_error _ _ hex]
  · intro hok
    have hall : ∀ p ∈ queryTypes.zip [r1, r2, r3, r4, r5, r6, r7],
        p.2 ≠ Except.error () := by
      rw [hzip]
      intro p hp
      simp only [List.mem_cons, List.not_mem_nil, or_false] at hp
      rcases hp with rfl|rfl|rfl|rfl|rfl|rfl|rfl
      · exact hok r1 (by simp)
      · exact hok r2 (by simp)
      · exact hok r3 (by simp)
      · exact hok r4 (by simp)
      · exact hok r5 (by simp)
      · exact hok r6 (by simp)
      · exact hok r7 (by simp)
    unfold collectSources
    rw [collectLoop_all_ok _ _ hall]
    rfl

/-- Witness for C3 amended: a failing first query empties the list; an
all-success run flattens in order. -/
theorem claim_C3_witness :
    collectSources [Except.error (), .ok [], .ok [], .ok [], .ok [], .ok [], .ok []] = []
    ∧ collectSources [Except.ok [RawResult.mk "a" "b" "c"], .ok [], .ok [], .ok [],
        .ok [], .ok [], .ok []]
      = flattenTagged [("general", [RawResult.mk "a" "b" "c"]), ("changes", []),
          ("tech", []), ("culture", []), ("people_internal", []),
          ("people_corporate", []), ("people_linkedin", [])] :=
  ⟨(claim_C3_amended (Except.error ()) (.ok []) (.ok []) (.ok []) (.ok []) (.ok [])
      (.ok [])).1 (by simp),
   (claim_C3_amended (Except.ok [RawResult.mk "a" "b" "c"]) (.ok []) (.ok []) (.ok [])
      (.ok []) (.ok []) (.ok [])).2 (by simp)⟩

/-- Claim C4, confirmed: when the synthesis text does not parse as JSON
after code-fence stripping, `get_company_data` returns exactly the
fallback record: `_metadata` has zero sources, personas is the single
Director of Internal Communications placeholder, and why_now is the
single Additional research needed item. -/
theorem claim_C4 (parse : String → Option Json)
    (responses : List (Except Unit (List RawResult)))
    (json_output company_name website_url : String)
    (h : parse (cleanFences json_output) = none) :
    get_company_data_raw parse responses json_output company_name website_url
      = .ok (get_fallback_data company_name website_url)
    ∧ (get_fallback_data company_name website_url).getKey "_metadata"
        = some (.obj [("company_name", .str company_name), ("website", .str website_url),
                      ("sources_count", .num 0), ("all_sources", .arr [])])
    ∧ (get_fallback_data company_name website_url).getKey "personas"
        = some (.arr [.obj [("name", .str "Director of Internal Communications"),
            ("role", .str "Internal Comms Lead"), ("email", .str "Unknown"),
            ("is_named_person", .bool false),
            ("goals", .arr [.str "Improve engagement", .str "Streamline tools"]),
            ("fears", .arr [.str "Low adoption", .str "Noise"]), ("source", .null)]])
    ∧ (get_fallback_data company_name website_url).getKey "why_now"
        = some (.arr [.obj [("title", .str "Additional research needed"),
            ("description", .str ("Manual research recommended for " ++ company_name)),
            ("source", .null), ("source_url", .str website_url)]]) := by
  refine ⟨?_, rfl, rfl, rfl⟩
  unfold get_company_data_raw get_company_data
  rw [h]
  rfl

/-- Witness for C4 at a concrete non-JSON synthesis output. -/
theorem claim_C4_witness :
    get_company_data_raw (fun _ => none) [] "this output is not JSON" "Acme Corp" "acme.com"
      = .ok (get_fallback_data "Acme Corp" "acme.com") :=
  (claim_C4 (fun _ => none) [] "this output is not JSON" "Acme Corp" "acme.com" rfl).1

/-- Claim C5, counterexample: a synthesis response that parses as a JSON
value that is not an object (here an array) makes `get_company_data`
raise an uncaught `TypeError` instead of returning a repaired or fallback
record — only `json.JSONDecodeError` is caught. -/
theorem claim_C5_counterexample :
    get_company_data [] (some (.arr [])) "Acme Corp" "acme.com" = .error .typeError := rfl

/-- Claim C5, amended: `get_company_data` never raises when the synthesis
text fails to parse (fallback record) or parses as a JSON object (missing
sections defaulted); but when the text parses as a JSON non-object the
call raises an uncaught `TypeError`. -/
theorem claim_C5_amended (responses : List (Except Unit (List RawResult)))
    (company_name website_url : String) :
    ((get_company_data responses none company_name website_url).toOption.isSome = true)
    ∧ (∀ kvs, (get_company_data responses (some (.obj kvs))
        company_name website_url).toOption.isSome = true)
    ∧ (∀ pj, pj.isObj = false →
        get_company_data responses (some pj) company_name website_url
          = .error .typeError) := by
  refine ⟨rfl, fun kvs => rfl, fun pj hpj => ?_⟩
  cases pj with
  | obj kvs => cases hpj
  | arr l => rfl
  | str s => rfl
  | num n => rfl
  | bool b => rfl
  | null => rfl

/-- Witness for C5 amended at concrete inputs for every branch. -/
theorem claim_C5_witness :
    ((get_company_data [] none "Acme Corp" "acme.com").toOption.isSome = true)
    ∧ ((get_company_data [] (some (.obj [])) "Acme Corp" "acme.com").toOption.isSome = true)
    ∧ (get_company_data [] (some (.str "oops")) "Acme Corp" "acme.com" = .error .typeError) :=
  ⟨(claim_C5_amended [] "Acme Corp" "acme.com").1,
   (claim_C5_amended [] "Acme Corp" "acme.com").2.1 [],
   (claim_C5_amended [] "Acme Corp" "acme.com").2.2 (.str "oops") rfl⟩

/-- Claim C6, confirmed: a parsed object missing `angles` gets
`angles == []`, every non-`_metadata` key present in the parsed object is
returned unchanged, and each absent required section is independently
replaced by its documented default. -/
theorem claim_C6 (responses : List (Except Unit (List RawResult)))
    (kvs : List (String × Json)) (company_name website_url : String) :
    (dictGet kvs "angles" = none →
      ((get_company_data responses (some (.obj kvs)) company_name website_url).toOption.getD
          .null).getKey "angles" = some (.arr []))
    ∧ (∀ k v, k ≠ "_metadata" → dictGet kvs k = some v →
      ((get_company_data responses (some (.obj kvs)) company_name website_url).toOption.getD
          .null).getKey k = some v)
    ∧ (∀ k, k ∈ requiredKeys → dictGet kvs k = none →
      ((get_company_data responses (some (.obj kvs)) company_name website_url).toOption.getD
          .null).getKey k = some (get_default_section k)) := by
  refine ⟨fun ha => ?_, fun k v hk hv => ?_, fun k hk hn => ?_⟩
  · show dictGet (dictSet (validateRequired kvs) "_metadata"
        (metadataJson company_name website_url (collectSources responses))) "angles"
      = some (.arr [])
    rw [dictGet_dictSet_of_ne _ _ _ _ (by decide)]
    exact validateRequired_default_of_none kvs "angles" (by decide) ha
  · show dictGet (dictSet (validateRequired kvs) "_metadata"
        (metadataJson company_name website_url (collectSources responses))) k = some v
    rw [dictGet_dictSet_of_ne _ _ _ _ hk]
    exact validateRequired_preserve_some _ _ _ hv
  · have hkm : k ≠ "_metadata" := by
      simp only [requiredKeys, List.mem_cons, List.not_mem_nil, or_false] at hk
      rcases hk with rfl|rfl|rfl|rfl <;> decide
    show dictGet (dictSet (validateRequired kvs) "_metadata"
        (metadataJson company_name website_url (collectSources responses))) k
      = some (get_default_section k)
    rw [dictGet_dictSet_of_ne _ _ _ _ hkm]
    exact validateRequired_default_of_none kvs k hk hn

/-- Witness for C6 at a concrete parsed object that has a snapshot but
lacks angles and personas. -/
theorem claim_C6_witness :
    ((get_company_data [] (some (.obj [("snapshot", .str "keep")]))
        "Acme Corp" "acme.com").toOption.getD .null).getKey "angles" = some (.arr [])
    ∧ ((get_company_data [] (some (.obj [("snapshot", .str "keep")]))
        "Acme Corp" "acme.com").toOption.getD .null).getKey "snapshot" = some (.str "keep")
    ∧ ((get_company_data [] (some (.obj [("snapshot", .str "keep")]))
        "Acme Corp" "acme.com").toOption.getD .null).getKey "personas"
      = some (get_default_section "personas") :=
  ⟨(claim_C6 [] [("snapshot", .str "keep")] "Acme Corp" "acme.com").1 rfl,
   (claim_C6 [] [("snapshot", .str "keep")] "Acme Corp" "acme.com").2.1 "snapshot"
     (.str "keep") (by decide) rfl,
   (claim_C6 [] [("snapshot", .str "keep")] "Acme Corp" "acme.com").2.2 "personas"
     (by decide) rfl⟩

/-- Claim C7, confirmed: feeding the fallback record itself back through
the parse-validate-attach step with an empty collected-source list for
the same company and website returns it unchanged — every section is
present so nothing is re-defaulted, and the reattached `_metadata` equals
the fallback record's own. -/
theorem claim_C7 (company_name website_url : String) :
    processParsed (some (get_fallback_data company_name website_url))
        company_name website_url []
      = .ok (get_fallback_data company_name website_url) := rfl

/-- Claim C8, counterexample: the second source category the code assigns
is named `changes`, not `strategy` as the spec's claimed category order
has it — with one result for each of the first two queries, source index
1 carries query_type `changes` while the claimed cumulative-offset
category is `strategy`. -/
theorem claim_C8_counterexample :
    ((collectSources [Except.ok [RawResult.mk "t1" "u1" "c1"],
        .ok [RawResult.mk "t2" "u2" "c2"], .ok [], .ok [], .ok [], .ok [],
        .ok []])[1]?).map Source.query_type = some "changes"
    ∧ categoryOfIndex (specClaimedQueryOrder.zip [1, 1, 0, 0, 0, 0, 0]) 1 = some "strategy"
    ∧ ("changes" : String) ≠ "strategy" := by
  exact ⟨rfl, rfl, by decide⟩

/-- Claim C8, amended: with the code's category order `general, changes,
tech, culture, people_internal, people_corporate, people_linkedin`, the
Nth collected source always belongs to the category determined by
cumulative offsets over the per-query result counts; the collection is a
pure function of the responses, so identical upstream responses yield
identical index assignments. -/
theorem claim_C8_amended (r1 r2 r3 r4 r5 r6 r7 : List RawResult) (n : Nat) :
    ((collectSources [Except.ok r1, .ok r2, .ok r3, .ok r4, .ok r5, .ok r6,
        .ok r7])[n]?).map Source.query_type
      = categoryOfIndex
          [("general", r1.length), ("changes", r2.length), ("tech", r3.length),
           ("culture", r4.length), ("people_internal", r5.length),
           ("people_corporate", r6.length), ("people_linkedin", r7.length)] n := by
  have hall : ∀ p ∈ queryTypes.zip [Except.ok r1, .ok r2, .ok r3, .ok r4, .ok r5,
      .ok r6, .ok r7], p.2 ≠ Except.error () := by
    intro p hp
    have hz : queryTypes.zip [Except.ok r1, .ok r2, .ok r3, .ok r4, .ok r5, .ok r6, .ok r7]
        = ([("general", Except.ok r1), ("changes", Except.ok r2), ("tech", Except.ok r3),
            ("culture", Except.ok r4), ("people_internal", Except.ok r5),
            ("people_corporate", Except.ok r6), ("people_linkedin", Except.ok r7)]
           : List (String × Except Unit (List RawResult))) := rfl
    rw [hz] at hp
    simp only [List.mem_cons, List.not_mem_nil, or_false] at hp
    rcases hp with rfl|rfl|rfl|rfl|rfl|rfl|rfl <;> exact fun hh => Except.noConfusion hh
  have hcs : collectSources [Except.ok r1, .ok r2, .ok r3, .ok r4, .ok r5, .ok r6, .ok r7]
      = flattenTagged [("general", r1), ("changes", r2), ("tech", r3), ("culture", r4),
          ("people_internal", r5), ("people_corporate", r6), ("people_linkedin", r7)] := by
    unfold collectSources
    rw [collectLoop_all_ok _ _ hall]
    rfl
  rw [hcs, flattenTagged_getElem]
  rfl

/-- Claim C9, confirmed: after any successful parse of a JSON object, the
returned record's `_metadata` equals the pipeline-built envelope, whatever
`_metadata` the generator output contained. -/
theorem claim_C9 (responses : List (Except Unit (List RawResult)))
    (kvs : List (String × Json)) (company_name website_url : String) (j : Json)
    (h : get_company_data responses (some (.obj kvs)) company_name website_url = .ok j) :
    j.getKey "_metadata"
      = some (metadataJson company_name website_url (collectSources responses)) := by
  have hred : get_company_data responses (some (.obj kvs)) company_name website_url
      = .ok (.obj (dictSet (validateRequired kvs) "_metadata"
          (metadataJson company_name website_url (collectSources responses)))) := rfl
  rw [hred] at h
  have hj := (Except.ok.inj h).symm
  subst hj
  exact dictGet_dictSet_self _ _ _

/-- Witness for C9: a generator-provided bogus `_metadata` is overwritten
by the pipeline envelope. -/
theorem claim_C9_witness :
    (((get_company_data [] (some (.obj [("_metadata", .str "bogus")]))
        "Acme Corp" "acme.com").toOption.getD .null).getKey "_metadata")
      = some (metadataJson "Acme Corp" "acme.com" []) :=
  claim_C9 [] [("_metadata", .str "bogus")] "Acme Corp" "acme.com" _ rfl

/-- Claim C10, confirmed: `match_features_to_company` returns at most 4
entries, every returned entry has relevance_score at least 1 (a feature
with no matched pain-point keyword is never returned), and the returned
list is sorted in non-increasing order of relevance_score. -/
theorem claim_C10 (structured_data : CompanyData) :
    (match_features_to_company structured_data).length ≤ 4
    ∧ (∀ f ∈ match_features_to_company structured_data, 1 ≤ f.relevance_score)
    ∧ List.Pairwise (fun a b => b.relevance_score ≤ a.relevance_score)
        (match_features_to_company structured_data) := by
  unfold match_features_to_company
  dsimp only
  refine ⟨?_, ?_, ?_⟩
  · rw [List.length_map, List.length_take]
    exact inf_le_left
  · intro f hf
    rcases List.mem_map.mp hf with ⟨fi, hfi, rfl⟩
    have h2 : fi ∈ List.insertionSort scoreGE
        (featureScoresList (combinedText structured_data)) :=
      List.Sublist.mem hfi (List.take_sublist _ _)
    have h3 : fi ∈ featureScoresList (combinedText structured_data) :=
      (List.perm_insertionSort scoreGE _).mem_iff.mp h2
    exact mem_featureScoresList_pos _ _ h3
  · have hs := List.sorted_insertionSort scoreGE
      (featureScoresList (combinedText structured_data))
    have ht : List.Pairwise scoreGE (List.take 4 (List.insertionSort scoreGE
        (featureScoresList (combinedText structured_data)))) :=
      List.Pairwise.sublist (List.take_sublist _ _) hs
    rw [List.pairwise_map]
    exact ht.imp (fun h => h)

/-- Witness for C10 at a concrete record whose industry text matches the
multilingual feature's `global` keyword. -/
theorem claim_C10_witness :
    1 ≤ ({ key := "multilingual", name := "Global Team Communication",
           features := ["Language translation", "US/EU/CA-based servers",
             "Automated time zone sending"],
           tier := "Premium", relevance_score := 1,
           matched_keywords := ["global"] } : MatchedFeature).relevance_score :=
  (claim_C10 ⟨⟨"Global security", "", "", [], []⟩, [], []⟩).2.1 _ (by decide)
